import Mathlib

/-!
Shallow embedding of the order-management core of the repository
(`app/services/order_service.py`, `app/services/product_service.py`,
`app/core/kafka.py`, `app/core/redis.py`, `app/consumers/order_consumer.py`)
together with the data model (`app/models/order.py`, `app/models/user.py`,
`app/schemas/order.py`, `app/schemas/product.py`).

Modelling conventions:
- the relational store, the Redis cache, the Kafka producer state and the
  list of published events are bundled into one explicit state `Sys`
  threaded through every operation;
- SQL `Integer` columns become `Int`, `Float` money columns become `ℚ`,
  autoincrement primary keys are modelled with a `nextOrderId` counter and
  `DateTime` columns with a logical `clock`;
- Redis is an association list keyed by the numeric part of the
  `"order:{id}"` / `"product:{id}"` keys (the two key families are disjoint,
  so they are kept as two separate maps);
- a SQLAlchemy session transaction is modelled by applying the whole
  committed effect at the commit point and applying nothing on rollback;
- exceptions raised by the services (`HTTPException`,
  `OrderNotFoundException`, `ForbiddenException`) become `Except` errors.
-/

namespace OrderMgmt

/-- Lifecycle states of an order (`app/models/order.py`, class `OrderStatus`). -/
inductive OrderStatus where
  | CREATED
  | PAYMENT_PENDING
  | CONFIRMED
  | SHIPPED
  | DELIVERED
  | CANCELLED
  | FAILED
deriving DecidableEq

/-- User roles (`app/models/user.py`, class `UserRole`). -/
inductive UserRole where
  | ADMIN
  | CUSTOMER
deriving DecidableEq

/-- The fields of `app.models.user.User` read by the order services. -/
structure User where
  id : Int
  role : UserRole
deriving DecidableEq

/-- The `products` row (`app.models.product.Product`; the model file itself is
not present under `src/`, its columns are those consumed by
`app/services/product_service.py` and described by `ProductResponse` in
`app/schemas/product.py`): integer id, name, price, stock_quantity. -/
structure Product where
  id : Int
  name : String
  price : ℚ
  stock_quantity : Int
deriving DecidableEq

/-- The `orders` row (`app.models.order.Order`): note `product_id` is a
`String` column while `user_id` is an integer foreign key; `created_at` is
modelled as a logical timestamp. -/
structure Order where
  id : Nat
  user_id : Int
  product_id : String
  quantity : Int
  total_price : ℚ
  status : OrderStatus
  customer_email : String
  shipping_address : Option String
  created_at : Nat
deriving DecidableEq

/-- Creation payload (`app/schemas/order.py`, `OrderCreate`); pydantic
validates `quantity` with `gt=0, le=1000` and `total_price` with `ge=0`.
The validated payload is what reaches the service. -/
structure OrderCreate where
  product_id : String
  quantity : Int
  customer_email : String
  shipping_address : Option String := none
  total_price : Option ℚ := none
deriving DecidableEq

/-- Update payload (`app/schemas/order.py`, `OrderUpdate`); `none` models an
absent field. -/
structure OrderUpdate where
  quantity : Option Int := none
  shipping_address : Option String := none
  total_price : Option ℚ := none
deriving DecidableEq

/-- Listing filters (`app/schemas/order.py`, `OrderFilter`). -/
structure OrderFilter where
  status : Option OrderStatus := none
  product_id : Option String := none
  user_id : Option Int := none
  min_price : Option ℚ := none
  max_price : Option ℚ := none
deriving DecidableEq

/-- Product creation payload (`app/schemas/product.py`, `ProductCreate`);
pydantic validates `price ≥ 0` and `stock_quantity ≥ 0`. -/
structure ProductCreate where
  name : String
  description : Option String := none
  price : ℚ
  stock_quantity : Int
deriving DecidableEq

/-- Product update payload (`app/schemas/product.py`, `ProductUpdate`);
`none` models a field absent from `model_dump(exclude_unset=True)`. -/
structure ProductUpdate where
  name : Option String := none
  description : Option String := none
  price : Option ℚ := none
  stock_quantity : Option Int := none
deriving DecidableEq

/-- The Kafka order event assembled in `create_order`
(`app/services/order_service.py`, lines 77-85). -/
structure OrderEvent where
  event : String
  order_id : Nat
  product_id : String
  quantity : Int
  total_price : ℚ
  status : OrderStatus
  customer_email : String
deriving DecidableEq

/-- The relational system of record: product and order tables, the
autoincrement counter for order ids and a logical clock for `created_at`. -/
structure DB where
  products : List Product
  orders : List Order
  nextOrderId : Nat
  clock : Nat
deriving DecidableEq

/-- Whole-system state: database, the two Redis key families
(`product:{id}` and `order:{id}`), the Kafka producer flag
(`KafkaProducer.producer is not None`), broker availability, and the list of
successfully published events. -/
structure Sys where
  db : DB
  productCache : List (Int × Product)
  orderCache : List (Nat × Order)
  producerStarted : Bool
  brokerUp : Bool
  sentEvents : List (String × OrderEvent)
deriving DecidableEq

/-! Redis primitives (`app/core/redis.py`): GET, SET (overwrite), DELETE. -/

/-- Redis `GET key` on one key family. -/
def cacheLookup {κ α : Type} [DecidableEq κ] : List (κ × α) → κ → Option α
  | [], _ => none
  | (k, v) :: rest, key => if k = key then some v else cacheLookup rest key

/-- Redis `DELETE key` on one key family. -/
def cacheErase {κ α : Type} [DecidableEq κ] (l : List (κ × α)) (key : κ) :
    List (κ × α) :=
  l.filter (fun kv => decide (kv.1 ≠ key))

/-- Redis `SET key value` (overwrites any previous value). -/
def cacheInsert {κ α : Type} [DecidableEq κ] (l : List (κ × α)) (key : κ)
    (v : α) : List (κ × α) :=
  (key, v) :: cacheErase l key

/-! Database primitives: primary-key lookup (`db.get`), row update at commit,
row deletion. -/

/-- `db.get(Product, product_id)`. -/
def findProduct (db : DB) (pid : Int) : Option Product :=
  db.products.find? (fun p => p.id == pid)

/-- Committing a mutation of the product row with id `pid`. -/
def replaceProduct (db : DB) (pid : Int) (p' : Product) : DB :=
  { db with products := db.products.map (fun p => if p.id == pid then p' else p) }

/-- `db.get(Order, order_id)`. -/
def findOrder (db : DB) (oid : Nat) : Option Order :=
  db.orders.find? (fun o => o.id == oid)

/-- Committing a mutation of the order row with id `oid`. -/
def replaceStoredOrder (db : DB) (oid : Nat) (o' : Order) : DB :=
  { db with orders := db.orders.map (fun o => if o.id == oid then o' else o) }

/-- `db.delete(order)` followed by commit. -/
def removeOrder (db : DB) (oid : Nat) : DB :=
  { db with orders := db.orders.filter (fun o => decide (o.id ≠ oid)) }

/-! `app/services/product_service.py` -/

/-- `get_product(db, product_id, use_cache)` (`product_service.py`, lines
19-36): with `use_cache` the Redis key `product:{id}` is consulted first and a
miss that finds a row populates the cache; with `use_cache = false` the cache
is neither read nor written. Returns the loaded product (from the cache or
the store) and the possibly-updated state. -/
def getProduct (s : Sys) (pid : Int) (use_cache : Bool) :
    Option Product × Sys :=
  if use_cache then
    match cacheLookup s.productCache pid with
    | some cached => (some cached, s)
    | none =>
      match findProduct s.db pid with
      | some p =>
        (some p, { s with productCache := cacheInsert s.productCache pid p })
      | none => (none, s)
  else
    (findProduct s.db pid, s)

/-- `create_product(db, product_data)` (`product_service.py`, lines 11-17).
The fresh integer id is taken to be one more than the largest existing
product id. -/
def nextProductId (db : DB) : Int :=
  (db.products.map (fun p => p.id)).foldr max 0 + 1

/-- `create_product`: insert a row built from the validated payload. -/
def createProduct (s : Sys) (pd : ProductCreate) : Product × Sys :=
  ({ id := nextProductId s.db, name := pd.name, price := pd.price,
     stock_quantity := pd.stock_quantity },
   { s with db := { s.db with
       products := s.db.products ++
         [{ id := nextProductId s.db, name := pd.name, price := pd.price,
            stock_quantity := pd.stock_quantity }] } })

/-- Applying `model_dump(exclude_unset=True)` of a `ProductUpdate` to a row
(`product_service.py`, lines 44-46). -/
def applyProductUpdate (p : Product) (pd : ProductUpdate) : Product :=
  { p with name := pd.name.getD p.name,
           price := pd.price.getD p.price,
           stock_quantity := pd.stock_quantity.getD p.stock_quantity }

/-- `update_product(db, product_id, product_data)` (`product_service.py`,
lines 38-53): load bypassing the cache, apply the supplied fields, commit,
delete the `product:{id}` cache key. -/
def updateProduct (s : Sys) (pid : Int) (pd : ProductUpdate) :
    Option Product × Sys :=
  match (getProduct s pid false).1 with
  | none => (none, s)
  | some p =>
    (some (applyProductUpdate p pd),
     { s with db := replaceProduct s.db pid (applyProductUpdate p pd),
              productCache := cacheErase s.productCache pid })

/-- `deduct_stock(db, product_id, quantity)` (`product_service.py`, lines
87-98): load bypassing the cache; refuse (leaving every part of the state
unchanged) when the product is missing or `stock_quantity < quantity`;
otherwise commit the decrement and delete the `product:{id}` cache key. -/
def deductStock (s : Sys) (pid : Int) (quantity : Int) : Bool × Sys :=
  match (getProduct s pid false).1 with
  | none => (false, s)
  | some p =>
    if p.stock_quantity < quantity then (false, s)
    else
      (true,
       { s with db := replaceProduct s.db pid
                  { p with stock_quantity := p.stock_quantity - quantity },
                productCache := cacheErase s.productCache pid })

/-! `app/core/kafka.py` -/

/-- `settings.KAFKA_TOPIC_ORDER_EVENTS` (`app/core/config.py`). -/
def topicOrderEvents : String := "order-events"

/-- `KafkaProducer.send_message` (`app/core/kafka.py`, lines 41-57): when the
producer never started (`self.producer is None`) the call logs and drops the
message; when the broker send raises, the exception is caught and logged;
only a successful send appends to the published list. The function is total:
no error ever propagates to the caller. -/
def sendMessage (s : Sys) (topic : String) (msg : OrderEvent) : Sys :=
  if s.producerStarted = false then s
  else if s.brokerUp then
    { s with sentEvents := s.sentEvents ++ [(topic, msg)] }
  else s

/-! `app/services/order_service.py` -/

/-- Base-10 digit-string value; `none` on the empty list or any non-digit. -/
def digitsVal : List Char → Option Nat
  | [] => none
  | l =>
    l.foldl
      (fun acc c =>
        match acc with
        | none => none
        | some n => if c.isDigit then some (n * 10 + (c.toNat - 48)) else none)
      (some 0)

/-- Python `int(order_data.product_id)` (`order_service.py`, line 36): an
optional sign followed by digits parses to an integer, anything else raises
`ValueError` (modelled as `none`). -/
def parseProductId (s : String) : Option Int :=
  match s.data with
  | '-' :: rest => (digitsVal rest).map (fun n => -(n : Int))
  | l => (digitsVal l).map (fun n => (n : Int))

/-- Errors raised by `create_order` (HTTP 400/404 exceptions,
`order_service.py`, lines 38, 42, 45-48, 71). -/
inductive CreateErr where
  | invalidProductId
  | productNotFound
  | insufficientStock
  | stockDeductionFailed
deriving DecidableEq

/-- Errors raised by the update/delete/status paths
(`OrderNotFoundException`, `ForbiddenException`). -/
inductive MutErr where
  | notFound
  | forbidden
deriving DecidableEq

/-- The `Order` row constructed in `create_order` (`order_service.py`, lines
51-62): `total_price` is the loaded product's price times the requested
quantity; the caller-supplied `order_data.total_price` is not consulted. -/
def newOrder (s1 : Sys) (req : OrderCreate) (u : User) (product : Product) :
    Order :=
  { id := s1.db.nextOrderId, user_id := u.id, product_id := req.product_id,
    quantity := req.quantity,
    total_price := product.price * (req.quantity : ℚ),
    status := OrderStatus.CREATED, customer_email := req.customer_email,
    shipping_address := req.shipping_address, created_at := s1.db.clock }

/-- The part of the commit that persists the pending `db.add(order)`
(`order_service.py`, lines 64 and 73): the row is appended with the fresh id
and the id counter and clock advance. -/
def insertNewOrder (s : Sys) (o : Order) : Sys :=
  { s with db := { s.db with
      orders := s.db.orders ++ [o],
      nextOrderId := s.db.nextOrderId + 1,
      clock := s.db.clock + 1 } }

/-- The `ORDER_CREATED` event payload (`order_service.py`, lines 77-85). -/
def mkOrderEvent (o : Order) : OrderEvent :=
  { event := "ORDER_CREATED", order_id := o.id, product_id := o.product_id,
    quantity := o.quantity, total_price := o.total_price, status := o.status,
    customer_email := o.customer_email }

/-- `create_order(db, order_data, user)` (`order_service.py`, lines 18-88):
parse the product reference; load the product through `get_product` with the
default `use_cache=True`; reject when the loaded `stock_quantity` is below
the requested quantity; otherwise build the order row, call `deduct_stock`
(which re-reads the row bypassing the cache) and commit the order insert and
the stock decrement as one unit — a failed deduction rolls the pending
insert back and leaves the store untouched; finally publish the
`ORDER_CREATED` event best-effort. -/
def createOrder (s : Sys) (req : OrderCreate) (u : User) :
    Except CreateErr Order × Sys :=
  match parseProductId req.product_id with
  | none => (Except.error CreateErr.invalidProductId, s)
  | some pid =>
    match getProduct s pid true with
    | (none, s1) => (Except.error CreateErr.productNotFound, s1)
    | (some product, s1) =>
      if product.stock_quantity < req.quantity then
        (Except.error CreateErr.insufficientStock, s1)
      else
        match deductStock s1 pid req.quantity with
        | (false, s2) => (Except.error CreateErr.stockDeductionFailed, s2)
        | (true, s2) =>
          (Except.ok (newOrder s1 req u product),
           sendMessage (insertNewOrder s2 (newOrder s1 req u product))
             topicOrderEvents (mkOrderEvent (newOrder s1 req u product)))

/-- `get_order(db, order_id, use_cache)` (`order_service.py`, lines 91-115):
with `use_cache` the Redis key `order:{id}` is consulted first; a miss that
finds a row caches it; a miss that finds nothing returns `None` and writes
nothing. With `use_cache = false` the cache is untouched. -/
def getOrder (s : Sys) (oid : Nat) (use_cache : Bool) : Option Order × Sys :=
  if use_cache then
    match cacheLookup s.orderCache oid with
    | some cached => (some cached, s)
    | none =>
      match findOrder s.db oid with
      | some o =>
        (some o, { s with orderCache := cacheInsert s.orderCache oid o })
      | none => (none, s)
  else
    (findOrder s.db oid, s)

/-- Field application of an `OrderUpdate` (`order_service.py`, lines
151-157): each of `quantity`, `shipping_address`, `total_price` is written
only when supplied; nothing else is touched — in particular `total_price` is
not recomputed when only `quantity` changes, and a supplied `total_price` is
honored as given. -/
def applyOrderUpdate (o : Order) (upd : OrderUpdate) : Order :=
  { o with
      quantity := upd.quantity.getD o.quantity,
      shipping_address :=
        match upd.shipping_address with
        | some a => some a
        | none => o.shipping_address,
      total_price := upd.total_price.getD o.total_price }

/-- `update_order(db, order_id, order_data, user)` (`order_service.py`,
lines 118-165): load bypassing the cache; `OrderNotFoundException` when
absent; `ForbiddenException` unless the caller owns the order or is an
administrator; apply the supplied fields, commit, and delete the
`order:{id}` cache key. -/
def updateOrder (s : Sys) (oid : Nat) (upd : OrderUpdate) (u : User) :
    Except MutErr Order × Sys :=
  match (getOrder s oid false).1 with
  | none => (Except.error MutErr.notFound, s)
  | some o =>
    if o.user_id ≠ u.id ∧ u.role ≠ UserRole.ADMIN then
      (Except.error MutErr.forbidden, s)
    else
      (Except.ok (applyOrderUpdate o upd),
       { s with db := replaceStoredOrder s.db oid (applyOrderUpdate o upd),
                orderCache := cacheErase s.orderCache oid })

/-- `delete_order(db, order_id, user)` (`order_service.py`, lines 168-194):
load bypassing the cache; `OrderNotFoundException` when absent; delete the
row, commit, and delete the `order:{id}` cache key. (The admin-only rule is
enforced by the route dependency, not inside the service.) -/
def deleteOrder (s : Sys) (oid : Nat) (_u : User) : Except MutErr Unit × Sys :=
  match (getOrder s oid false).1 with
  | none => (Except.error MutErr.notFound, s)
  | some _ =>
    (Except.ok (),
     { s with db := removeOrder s.db oid,
              orderCache := cacheErase s.orderCache oid })

/-- `update_order_status(db, order_id, status)` (`order_service.py`, lines
197-229): load bypassing the cache; `OrderNotFoundException` when absent;
overwrite the status unconditionally, commit, and delete the `order:{id}`
cache key. -/
def updateOrderStatus (s : Sys) (oid : Nat) (st : OrderStatus) :
    Except MutErr Order × Sys :=
  match (getOrder s oid false).1 with
  | none => (Except.error MutErr.notFound, s)
  | some o =>
    (Except.ok { o with status := st },
     { s with db := replaceStoredOrder s.db oid { o with status := st },
              orderCache := cacheErase s.orderCache oid })

/-- The conjunction of the `conditions` list built in `list_orders`
(`order_service.py`, lines 254-274), applied to one row. Python truthiness
is mirrored: the `status` condition is added when a status is supplied (all
enum values are truthy), the `product_id` condition only for a non-empty
string, the `user_id` condition only for a non-zero id, and the price bounds
whenever supplied (`is not None`). A non-administrator caller always
contributes the `Order.user_id == user.id` condition. -/
def orderCond (user : Option User) (flt : Option OrderFilter) (o : Order) :
    Bool :=
  (match user with
   | some u => if u.role = UserRole.ADMIN then true else o.user_id == u.id
   | none => true) &&
  (match flt with
   | none => true
   | some f =>
     (match f.status with
      | some st => o.status == st
      | none => true) &&
     (match f.product_id with
      | some pidStr => if pidStr = "" then true else o.product_id == pidStr
      | none => true) &&
     (match f.user_id with
      | some uid => if uid = 0 then true else o.user_id == uid
      | none => true) &&
     (match f.min_price with
      | some m => m ≤ o.total_price
      | none => true) &&
     (match f.max_price with
      | some m => o.total_price ≤ m
      | none => true))

/-- One step of sorting by `created_at` descending (the
`order_by(Order.created_at.desc())` of the paginated query). -/
def insertByCreated (o : Order) : List Order → List Order
  | [] => [o]
  | x :: xs =>
    if x.created_at ≤ o.created_at then o :: x :: xs
    else x :: insertByCreated o xs

/-- Sort by `created_at` descending. -/
def sortByCreatedDesc (l : List Order) : List Order :=
  l.foldr insertByCreated []

/-- `list_orders(db, skip, limit, filters, user)` (`order_service.py`, lines
232-289): the count query applies the same conditions with no window; the
page query applies the conditions, sorts by `created_at` descending and
applies `OFFSET skip LIMIT limit`. -/
def listOrders (s : Sys) (skip limit : Nat) (flt : Option OrderFilter)
    (user : Option User) : List Order × Nat :=
  (((sortByCreatedDesc (s.db.orders.filter (orderCond user flt))).drop
      skip).take limit,
   (s.db.orders.filter (orderCond user flt)).length)

/-! `app/consumers/order_consumer.py` -/

/-- Outcome of one pass of the consumer loop body: either the subscription
starts and the message stream ends normally (the `break` at line 40), or an
exception is raised somewhere in the body (connection or iteration). -/
inductive AttemptOutcome where
  | endsNormally
  | fails
deriving DecidableEq

/-- Observable trace of `consume_order_events`: how many passes ran and the
sleeps performed between failed passes. -/
structure ConsumerTrace where
  attempts : Nat
  sleeps : List Nat
deriving DecidableEq

/-- The `while retries > 0` loop of `consume_order_events`
(`order_consumer.py`, lines 14-52), with `retries` as the recursion fuel:
a pass that ends normally breaks out; a failing pass decrements `retries`
and sleeps 10 seconds only when retries remain. The environment `env` tells
how pass number `a` behaves. -/
def consumeLoop (env : Nat → AttemptOutcome) :
    Nat → Nat → List Nat → ConsumerTrace
  | 0, a, sl => { attempts := a, sleeps := sl }
  | r + 1, a, sl =>
    match env a with
    | AttemptOutcome.endsNormally => { attempts := a + 1, sleeps := sl }
    | AttemptOutcome.fails =>
      if r > 0 then consumeLoop env r (a + 1) (sl ++ [10])
      else consumeLoop env r (a + 1) sl

/-- `consume_order_events` (`order_consumer.py`, lines 10-54): the loop
starts with `retries = 5` and, once the loop ends, the function only logs
and returns — nothing restarts it. -/
def consumeOrderEvents (env : Nat → AttemptOutcome) : ConsumerTrace :=
  consumeLoop env 5 0 []

/-! Auxiliary predicates used to state the claims. -/

/-- The stock of product `pid` as stored in the system of record. -/
def productStock (db : DB) (pid : Int) : Option Int :=
  (findProduct db pid).map (fun p => p.stock_quantity)

/-- The creation attempt requests more than the product's current
(authoritative) stock; vacuously true when the reference is malformed or the
product does not exist (those attempts fail regardless). -/
def requestedExceedsStock (s : Sys) (req : OrderCreate) : Bool :=
  match parseProductId req.product_id with
  | none => true
  | some pid =>
    match findProduct s.db pid with
    | none => true
    | some p => decide (p.stock_quantity < req.quantity)

/-- The `product:{pid}` cache entry, if present, agrees with the stored row.
Every product operation of the services preserves this (reads populate the
cache with the stored row, every product mutation deletes the key), so all
states the system itself produces satisfy it. -/
def productCacheCoherentAt (s : Sys) (pid : Int) : Bool :=
  match cacheLookup s.productCache pid with
  | none => true
  | some cached =>
    match findProduct s.db pid with
    | none => false
    | some p => cached == p

/-- Well-formedness of the autoincrement id counter: every stored order id
is below `nextOrderId` (primary keys are assigned increasingly). -/
def ordersWf (db : DB) : Bool :=
  db.orders.all (fun o => decide (o.id < db.nextOrderId))

/-- Every stored product has non-negative stock. -/
def stockNonneg (db : DB) : Bool :=
  db.products.all (fun p => decide (0 ≤ p.stock_quantity))

/-! Concrete fixtures used by witnesses and counterexamples. -/

/-- A product with id 1, price 10, stock 5. -/
def pWidget : Product :=
  { id := 1, name := "widget", price := 10, stock_quantity := 5 }

/-- A non-administrator caller. -/
def uAlice : User := { id := 7, role := UserRole.CUSTOMER }

/-- An administrator. -/
def uRoot : User := { id := 1, role := UserRole.ADMIN }

/-- A store holding just `pWidget`. -/
def baseDB : DB :=
  { products := [pWidget], orders := [], nextOrderId := 1, clock := 0 }

/-- Empty caches, producer started, broker up. -/
def baseSys : Sys :=
  { db := baseDB, productCache := [], orderCache := [],
    producerStarted := true, brokerUp := true, sentEvents := [] }

/-- A creation request for three units of product 1. -/
def reqW3 : OrderCreate :=
  { product_id := "1", quantity := 3, customer_email := "c@example.com" }

/-- A product whose authoritative stock is exhausted. -/
def pDrained : Product :=
  { id := 1, name := "widget", price := 10, stock_quantity := 0 }

/-- A stale cached projection of the same product still showing stock 10. -/
def pStaleProj : Product :=
  { id := 1, name := "widget", price := 10, stock_quantity := 10 }

/-- A state whose store says stock 0 while the cache still says stock 10. -/
def sStale : Sys :=
  { db := { products := [pDrained], orders := [], nextOrderId := 1,
            clock := 0 },
    productCache := [(1, pStaleProj)], orderCache := [],
    producerStarted := true, brokerUp := true, sentEvents := [] }

/-- A creation request for five units of product 1. -/
def reqW5 : OrderCreate :=
  { product_id := "1", quantity := 5, customer_email := "c@example.com" }

/-- Product 1 after an administrator repriced it to 20 in the store. -/
def pRepriced : Product :=
  { id := 1, name := "widget", price := 20, stock_quantity := 5 }

/-- A stale cached projection of product 1 still showing the old price 10. -/
def pOldPrice : Product :=
  { id := 1, name := "widget", price := 10, stock_quantity := 5 }

/-- A state whose store prices product 1 at 20 while the cache still says
10 (stock agrees, so a creation succeeds). -/
def sStalePrice : Sys :=
  { db := { products := [pRepriced], orders := [], nextOrderId := 1,
            clock := 0 },
    productCache := [(1, pOldPrice)], orderCache := [],
    producerStarted := true, brokerUp := true, sentEvents := [] }

/-- A stale projection sitting in the order cache under key 1. -/
def oStale : Order :=
  { id := 999, user_id := 7, product_id := "1", quantity := 1,
    total_price := 10, status := OrderStatus.CREATED,
    customer_email := "s@example.com", shipping_address := none,
    created_at := 0 }

/-- The base state with a leftover order-cache entry under the key that the
next created order will receive. -/
def sPreCached : Sys := { baseSys with orderCache := [(1, oStale)] }

/-- An order row stored and cached, owned by the non-administrator caller. -/
def oSeed : Order :=
  { id := 1, user_id := 7, product_id := "1", quantity := 3,
    total_price := 30, status := OrderStatus.CREATED,
    customer_email := "c@example.com", shipping_address := none,
    created_at := 0 }

/-- A state with the stored order 1 present in both the store and the order
cache. -/
def sSeeded : Sys :=
  { db := { products := [pWidget], orders := [oSeed], nextOrderId := 2,
            clock := 1 },
    productCache := [], orderCache := [(1, oSeed)],
    producerStarted := true, brokerUp := true, sentEvents := [] }

/-- A payload updating only the shipping address. -/
def updShip : OrderUpdate := { shipping_address := some "456 New St" }

/-- A product update supplying only a new stock figure. -/
def updStock7 : ProductUpdate := { stock_quantity := some 7 }

/-- Pydantic validation of a supplied `stock_quantity` update field
(`ProductUpdate.stock_quantity` carries `ge=0`). -/
def ProductUpdate.validStock (pd : ProductUpdate) : Bool :=
  match pd.stock_quantity with
  | none => true
  | some v => decide (0 ≤ v)

/-- A valid product-creation payload. -/
def pdNew : ProductCreate := { name := "gadget", price := 3,
                               stock_quantity := 4 }

/-- The base state with a producer that never started. -/
def sQuiet : Sys := { baseSys with producerStarted := false }

/-- A filter asking for a price floor (any filter works). -/
def fltPrice : OrderFilter := { min_price := some 1 }

/-- A payload updating only the quantity. -/
def updQty5 : OrderUpdate := { quantity := some 5 }

/-! Support lemmas about the cache and store primitives. -/

theorem cacheLookup_erase_self {κ α : Type} [DecidableEq κ]
    (l : List (κ × α)) (k : κ) : cacheLookup (cacheErase l k) k = none := by
  induction l with
  | nil => rfl
  | cons kv rest ih =>
    by_cases h : kv.1 = k
    · simpa [cacheErase, h] using ih
    · simpa [cacheErase, cacheLookup, h] using ih

theorem cacheLookup_insert_self {κ α : Type} [DecidableEq κ]
    (l : List (κ × α)) (k : κ) (v : α) :
    cacheLookup (cacheInsert l k v) k = some v := by
  simp [cacheInsert, cacheLookup]

theorem cacheLookup_insert_other {κ α : Type} [DecidableEq κ]
    (l : List (κ × α)) (k k' : κ) (v : α) (h : k ≠ k') :
    cacheLookup (cacheInsert l k v) k' = cacheLookup (cacheErase l k) k' := by
  simp [cacheInsert, cacheLookup, h]

theorem find?_of_mem_replace (l : List Product) (pid : Int) (p' : Product)
    (hid : p'.id = pid)
    (h : (l.find? (fun p => p.id == pid)).isSome = true) :
    (l.map (fun p => if p.id == pid then p' else p)).find?
      (fun p => p.id == pid) = some p' := by
  induction l with
  | nil => simp at h
  | cons x xs ih =>
    by_cases hx : x.id = pid
    · simp [hx, hid]
    · rw [List.find?_cons_of_neg] at h
      · simpa [hx, hid, List.find?_cons_of_neg] using ih h
      · simp [hx]

theorem findProduct_replace_self (db : DB) (pid : Int) (p' : Product)
    (hid : p'.id = pid) (h : (findProduct db pid).isSome = true) :
    findProduct (replaceProduct db pid p') pid = some p' :=
  find?_of_mem_replace db.products pid p' hid h

theorem findProduct_id (db : DB) (pid : Int) (p : Product)
    (h : findProduct db pid = some p) : p.id = pid := by
  have := List.find?_some h
  simpa using this

/-! Frame lemmas for `getProduct`: only the product cache can change, and
the store is never written. -/

theorem getProduct_frame (s : Sys) (pid : Int) (uc : Bool) :
    (getProduct s pid uc).2.db = s.db ∧
    (getProduct s pid uc).2.orderCache = s.orderCache ∧
    (getProduct s pid uc).2.producerStarted = s.producerStarted ∧
    (getProduct s pid uc).2.brokerUp = s.brokerUp ∧
    (getProduct s pid uc).2.sentEvents = s.sentEvents := by
  unfold getProduct
  split
  · cases hc : cacheLookup s.productCache pid with
    | some c => simp
    | none => cases hf : findProduct s.db pid with
      | some p => simp
      | none => simp
  · simp

theorem getProduct_fst_false (s : Sys) (pid : Int) :
    (getProduct s pid false).1 = findProduct s.db pid := rfl

theorem getProduct_snd_false (s : Sys) (pid : Int) :
    (getProduct s pid false).2 = s := rfl

/-- With a coherent cache entry, the cached load agrees with the store. -/
theorem getProduct_fst_coherent (s : Sys) (pid : Int)
    (h : productCacheCoherentAt s pid = true) :
    (getProduct s pid true).1 = findProduct s.db pid := by
  unfold productCacheCoherentAt at h
  unfold getProduct
  cases hc : cacheLookup s.productCache pid with
  | some c =>
    rw [hc] at h
    cases hf : findProduct s.db pid with
    | some p => rw [hf] at h; simp at h; simp [h]
    | none => rw [hf] at h; simp at h
  | none =>
    cases hf : findProduct s.db pid with
    | some p => simp [hf]
    | none => simp [hf]

/-! Characterization of `deductStock`. -/

theorem deductStock_fail (s : Sys) (pid q : Int)
    (h : (deductStock s pid q).1 = false) : (deductStock s pid q).2 = s := by
  unfold deductStock at *
  rw [getProduct_fst_false] at h ⊢
  cases hf : findProduct s.db pid with
  | none => rfl
  | some p =>
    by_cases hst : p.stock_quantity < q
    · simp [hf, hst]
    · simp [hf, hst] at h

theorem deductStock_ok (s : Sys) (pid q : Int)
    (h : (deductStock s pid q).1 = true) :
    ∃ p, findProduct s.db pid = some p ∧ q ≤ p.stock_quantity ∧
      (deductStock s pid q).2 =
        { s with db := replaceProduct s.db pid
                   { p with stock_quantity := p.stock_quantity - q },
                 productCache := cacheErase s.productCache pid } := by
  unfold deductStock at *
  rw [getProduct_fst_false] at h ⊢
  cases hf : findProduct s.db pid with
  | none => simp [hf] at h
  | some p =>
    by_cases hst : p.stock_quantity < q
    · simp [hf, hst] at h
    · refine ⟨p, ?_, Int.not_lt.mp hst, ?_⟩
      · simp [hf]
      · simp [hf, hst]

/-! Characterization of `createOrder`. -/

/-- Everything a successful creation did: the reference parsed, a product was
loaded (through the cache), the store's row had sufficient stock, the
returned order is the constructed row, and the final state is the committed
insert-plus-decrement followed by the best-effort publish. -/
theorem createOrder_ok_spec (s : Sys) (req : OrderCreate) (u : User)
    (o : Order) (h : (createOrder s req u).1 = Except.ok o) :
    ∃ pid product p,
      parseProductId req.product_id = some pid ∧
      (getProduct s pid true).1 = some product ∧
      findProduct s.db pid = some p ∧
      req.quantity ≤ product.stock_quantity ∧
      req.quantity ≤ p.stock_quantity ∧
      o = newOrder (getProduct s pid true).2 req u product ∧
      (createOrder s req u).2 =
        sendMessage
          (insertNewOrder
            { (getProduct s pid true).2 with
                db := replaceProduct s.db pid
                  { p with stock_quantity := p.stock_quantity - req.quantity },
                productCache :=
                  cacheErase ((getProduct s pid true).2).productCache pid }
            o)
          topicOrderEvents (mkOrderEvent o) := by
  unfold createOrder at h
  split at h
  · simp at h
  · next pid hp =>
    split at h
    · next s1 hg => simp at h
    · next product s1 hg =>
      have hfr := getProduct_frame s pid true
      rw [hg] at hfr
      simp only at hfr
      obtain ⟨hdb1, -, -, -, -⟩ := hfr
      split at h
      · simp at h
      · next hst =>
        split at h
        · next s2 hd => simp at h
        · next s2 hd =>
          simp only at h
          injection h with ho
          rcases deductStock_ok s1 pid req.quantity (by rw [hd]) with
            ⟨p, hf, hq, hs2⟩
          rw [hd] at hs2
          simp only at hs2
          rw [hdb1] at hf hs2
          refine ⟨pid, product, p, hp, ?_, hf, Int.not_lt.mp hst, hq, ?_, ?_⟩
          · rw [hg]
          · rw [hg]; exact ho.symm
          · unfold createOrder
            rw [hp]
            simp only []
            rw [hg]
            simp only []
            rw [if_neg hst, hd]
            simp only []
            rw [hs2, ho]

/-- A creation that did not return an order left the store untouched. -/
theorem createOrder_err_db (s : Sys) (req : OrderCreate) (u : User)
    (h : ∀ o, (createOrder s req u).1 ≠ Except.ok o) :
    (createOrder s req u).2.db = s.db := by
  unfold createOrder at h ⊢
  split
  · rfl
  · next pid hp =>
    have hfr := getProduct_frame s pid true
    split
    · next s1 hg =>
      rw [hg] at hfr
      exact hfr.1
    · next product s1 hg =>
      rw [hg] at hfr
      split
      · exact hfr.1
      · next hst =>
        split
        · next s2 hd =>
          have hfail := deductStock_fail s1 pid req.quantity (by rw [hd])
          rw [hd] at hfail
          simp only at hfail
          simp only [hfail]
          exact hfr.1
        · next s2 hd =>
          exfalso
          rw [hp] at h
          simp only [] at h
          rw [hg] at h
          simp only [] at h
          rw [if_neg hst, hd] at h
          simp only [] at h
          exact h (newOrder s1 req u product) rfl

/-! Small frame lemmas. -/

theorem sendMessage_db (s : Sys) (t : String) (m : OrderEvent) :
    (sendMessage s t m).db = s.db := by
  unfold sendMessage
  split
  · rfl
  · split <;> rfl

theorem sendMessage_orderCache (s : Sys) (t : String) (m : OrderEvent) :
    (sendMessage s t m).orderCache = s.orderCache := by
  unfold sendMessage
  split
  · rfl
  · split <;> rfl

theorem sendMessage_not_started (s : Sys) (t : String) (m : OrderEvent)
    (h : s.producerStarted = false) : sendMessage s t m = s := by
  unfold sendMessage
  rw [h]
  simp

theorem sendMessage_broker_down (s : Sys) (t : String) (m : OrderEvent)
    (h : s.brokerUp = false) : sendMessage s t m = s := by
  unfold sendMessage
  split
  · rfl
  · rw [h]
    simp

theorem insertNewOrder_orders (s : Sys) (o : Order) :
    (insertNewOrder s o).db.orders = s.db.orders ++ [o] := rfl

theorem findProduct_insertNewOrder (s : Sys) (o : Order) (pid : Int) :
    findProduct (insertNewOrder s o).db pid = findProduct s.db pid := rfl

theorem replaceProduct_orders (db : DB) (pid : Int) (p : Product) :
    (replaceProduct db pid p).orders = db.orders := rfl

/-- The creation path never reads the caller-supplied `total_price`
(`order_service.py` line 51 computes it from the product instead). -/
theorem createOrder_ignores_total (s : Sys) (req : OrderCreate) (u : User)
    (t : Option ℚ) :
    createOrder s { req with total_price := t } u = createOrder s req u := by
  cases req
  rfl

/-! Claim theorems. -/

/-- C1: whenever the requested quantity exceeds the product's current stock
(`requestedExceedsStock`), `create_order` fails with an error, and the
system of record is untouched: no order row is inserted and no stock is
deducted — the insert and the deduction are one atomic unit, and a deduction
that fails after the check (`deduct_stock` returning `False`) rolls the
whole unit back. -/
theorem create_order_oversell_all_or_nothing (s : Sys) (req : OrderCreate)
    (u : User) (H : requestedExceedsStock s req = true) :
    (∃ e, (createOrder s req u).1 = Except.error e) ∧
    (createOrder s req u).2.db = s.db := by
  have hnot : ∀ o, (createOrder s req u).1 ≠ Except.ok o := by
    intro o ho
    rcases createOrder_ok_spec s req u o ho with
      ⟨pid, product, p, hp, -, hf, -, hq, -, -⟩
    unfold requestedExceedsStock at H
    rw [hp] at H
    simp only [] at H
    rw [hf] at H
    simp only [decide_eq_true_eq] at H
    omega
  refine ⟨?_, createOrder_err_db s req u hnot⟩
  cases hres : (createOrder s req u).1 with
  | error e => exact ⟨e, rfl⟩
  | ok o => exact absurd hres (hnot o)

/-- Witness for C1: product 1 holds 5 units, nine are requested; the
creation fails and the store is unchanged. -/
theorem create_order_oversell_all_or_nothing_witness :
    requestedExceedsStock baseSys { reqW3 with quantity := 9 } = true ∧
    ((∃ e, (createOrder baseSys { reqW3 with quantity := 9 } uAlice).1 =
        Except.error e) ∧
     (createOrder baseSys { reqW3 with quantity := 9 } uAlice).2.db =
       baseSys.db) :=
  ⟨by decide,
   create_order_oversell_all_or_nothing baseSys { reqW3 with quantity := 9 }
     uAlice (by decide)⟩

/-- C2 counterexample: a successful creation does NOT always price the
order at the store's unit price times the quantity. With the store pricing
product 1 at 20 but the cache still holding the old price 10 (stock agrees,
so the creation succeeds), the created order's `total_price` is 30 — the
cached price times the quantity — while the product's unit price times the
quantity is 60. -/
theorem create_order_prices_from_stale_cache :
    findProduct sStalePrice.db 1 = some pRepriced ∧
    cacheLookup sStalePrice.productCache 1 = some pOldPrice ∧
    (createOrder sStalePrice reqW3 uAlice).1 =
      Except.ok (newOrder sStalePrice reqW3 uAlice pOldPrice) ∧
    (newOrder sStalePrice reqW3 uAlice pOldPrice).total_price = 30 ∧
    pRepriced.price * (reqW3.quantity : ℚ) = 60 ∧
    (newOrder sStalePrice reqW3 uAlice pOldPrice).total_price ≠
      pRepriced.price * (reqW3.quantity : ℚ) :=
  ⟨by decide, by decide, rfl,
   by norm_num [newOrder, pOldPrice, reqW3],
   by norm_num [pRepriced, reqW3],
   by norm_num [newOrder, pOldPrice, pRepriced, reqW3]⟩

/-- C2 amended: a successful creation decrements the product's stored stock
by exactly the requested quantity, appends exactly one order row, ignores
any caller-supplied `total_price` in the creation payload, and prices the
row as the price of the product record the creation loaded — the cached
projection when one is present, otherwise the stored row — times the
quantity; that equals the store's unit price whenever the cache entry for
the product agrees with the store. -/
theorem create_order_success_post (s : Sys) (req : OrderCreate) (u : User)
    (pid : Int) (o : Order)
    (hp : parseProductId req.product_id = some pid)
    (h : (createOrder s req u).1 = Except.ok o) :
    ∃ p product, findProduct s.db pid = some p ∧
      (getProduct s pid true).1 = some product ∧
      productStock (createOrder s req u).2.db pid =
        some (p.stock_quantity - req.quantity) ∧
      (createOrder s req u).2.db.orders = s.db.orders ++ [o] ∧
      o.total_price = product.price * (req.quantity : ℚ) ∧
      (productCacheCoherentAt s pid = true → product = p) ∧
      o.quantity = req.quantity ∧
      (∀ t, createOrder s { req with total_price := t } u =
        createOrder s req u) := by
  rcases createOrder_ok_spec s req u o h with
    ⟨pid', product, p, hp', hg1, hf, -, hq, ho, hstate⟩
  rw [hp] at hp'
  injection hp' with hpid
  subst hpid
  have hid : p.id = pid := findProduct_id s.db pid p hf
  have hsome : (findProduct s.db pid).isSome = true := by rw [hf]; rfl
  refine ⟨p, product, hf, hg1, ?_, ?_, ?_, ?_, ?_,
    fun t => createOrder_ignores_total s req u t⟩
  · unfold productStock
    rw [hstate, sendMessage_db, findProduct_insertNewOrder]
    show (findProduct (replaceProduct s.db pid
      { p with
          stock_quantity := p.stock_quantity - req.quantity }) pid).map
        (fun q => q.stock_quantity) =
      some (p.stock_quantity - req.quantity)
    rw [findProduct_replace_self s.db pid
      { p with stock_quantity := p.stock_quantity - req.quantity }
      hid hsome]
    rfl
  · rw [hstate, sendMessage_db, insertNewOrder_orders]
    rfl
  · rw [ho]; rfl
  · intro hco
    have hgp := getProduct_fst_coherent s pid hco
    rw [hg1, hf] at hgp
    injection hgp with hpp
  · rw [ho]; rfl

/-- Witness for the amended C2: creating three units of product 1 (stored
price 10, stock 5) from the base state, whose cache is empty. -/
theorem create_order_success_post_witness :
    parseProductId reqW3.product_id = some 1 ∧
    (∃ p product, findProduct baseSys.db 1 = some p ∧
      (getProduct baseSys 1 true).1 = some product ∧
      productStock (createOrder baseSys reqW3 uAlice).2.db 1 =
        some (p.stock_quantity - reqW3.quantity) ∧
      (createOrder baseSys reqW3 uAlice).2.db.orders =
        baseSys.db.orders ++ [newOrder baseSys reqW3 uAlice pWidget] ∧
      (newOrder baseSys reqW3 uAlice pWidget).total_price =
        product.price * (reqW3.quantity : ℚ) ∧
      (productCacheCoherentAt baseSys 1 = true → product = p) ∧
      (newOrder baseSys reqW3 uAlice pWidget).quantity = reqW3.quantity ∧
      (∀ t, createOrder baseSys { reqW3 with total_price := t } uAlice =
        createOrder baseSys reqW3 uAlice)) :=
  ⟨by decide,
   create_order_success_post baseSys reqW3 uAlice 1
     (newOrder baseSys reqW3 uAlice pWidget) (by decide) rfl⟩

/-- C3 counterexample: the step-3 stock-sufficiency decision is NOT made
against authoritative stock. With store stock 0 but a cached projection
showing 10, `create_order` sails past the insufficient-stock check (the
rejection it reports is the later deduction failure), while the identical
store with an empty cache is rejected by the step-3 check itself — so the
checked value came from the cached projection, not the system of record. -/
theorem create_order_stock_check_uses_cache :
    productStock sStale.db 1 = some 0 ∧
    cacheLookup sStale.productCache 1 = some pStaleProj ∧
    pStaleProj.stock_quantity = 10 ∧
    (createOrder sStale reqW5 uAlice).1 =
      Except.error CreateErr.stockDeductionFailed ∧
    (createOrder { sStale with productCache := [] } reqW5 uAlice).1 =
      Except.error CreateErr.insufficientStock :=
  ⟨by decide, by decide, by decide, rfl, rfl⟩

/-- C3 amended: the product load of `create_order` goes through the cache
(`get_product` is called with the default `use_cache=True`), so the step-3
check may be decided on a cached projection; the authoritative guard is
`deduct_stock`, which re-reads the row bypassing the cache — hence every
successful creation still implies the store's own stock was sufficient. -/
theorem create_order_success_implies_store_stock (s : Sys)
    (req : OrderCreate) (u : User) (pid : Int) (o : Order)
    (hp : parseProductId req.product_id = some pid)
    (h : (createOrder s req u).1 = Except.ok o) :
    ∃ p, findProduct s.db pid = some p ∧
      req.quantity ≤ p.stock_quantity := by
  rcases createOrder_ok_spec s req u o h with
    ⟨pid', product, p, hp', -, hf, -, hq, -, -⟩
  rw [hp] at hp'
  injection hp' with hpid
  rw [← hpid] at hf
  exact ⟨p, hf, hq⟩

/-- Witness for the amended C3 at the base state. -/
theorem create_order_success_implies_store_stock_witness :
    parseProductId reqW3.product_id = some 1 ∧
    (∃ p, findProduct baseSys.db 1 = some p ∧
      reqW3.quantity ≤ p.stock_quantity) :=
  ⟨by decide,
   create_order_success_implies_store_stock baseSys reqW3 uAlice 1
     (newOrder baseSys reqW3 uAlice pWidget) (by decide) rfl⟩

/-- C4 counterexample: creation does NOT delete the cache key for the new
order id. Starting from a state holding a (stale) cache entry under key 1 —
the id the new order receives — the creation succeeds, the entry survives,
and a read issued immediately after the mutation returns the pre-mutation
cached value instead of the created order. -/
theorem create_order_leaves_order_cache :
    (createOrder sPreCached reqW3 uAlice).1 =
      Except.ok (newOrder sPreCached reqW3 uAlice pWidget) ∧
    (newOrder sPreCached reqW3 uAlice pWidget).id = 1 ∧
    cacheLookup sPreCached.orderCache 1 = some oStale ∧
    (getOrder (createOrder sPreCached reqW3 uAlice).2 1 true).1 =
      some oStale ∧
    oStale.id ≠ (newOrder sPreCached reqW3 uAlice pWidget).id :=
  ⟨rfl, rfl, by decide, rfl, by decide⟩

/-- C4 amended: the update, delete and status-change paths do delete the
`order:{id}` cache key before returning (creation does not touch the order
cache; under normal operation no entry exists yet for a fresh id). -/
theorem mutations_invalidate_order_cache (s : Sys) (oid : Nat)
    (upd : OrderUpdate) (u : User) (st : OrderStatus) :
    (∀ o', (updateOrder s oid upd u).1 = Except.ok o' →
      cacheLookup (updateOrder s oid upd u).2.orderCache oid = none) ∧
    ((deleteOrder s oid u).1 = Except.ok () →
      cacheLookup (deleteOrder s oid u).2.orderCache oid = none) ∧
    (∀ o', (updateOrderStatus s oid st).1 = Except.ok o' →
      cacheLookup (updateOrderStatus s oid st).2.orderCache oid = none) := by
  refine ⟨?_, ?_, ?_⟩
  · intro o' h
    unfold updateOrder at h ⊢
    split at h
    · simp at h
    · next o hfo =>
      split at h
      · simp at h
      · next hperm =>
        rw [if_neg hperm]
        exact cacheLookup_erase_self s.orderCache oid
  · intro h
    unfold deleteOrder at h ⊢
    split at h
    · simp at h
    · exact cacheLookup_erase_self s.orderCache oid
  · intro o' h
    unfold updateOrderStatus at h ⊢
    split at h
    · simp at h
    · exact cacheLookup_erase_self s.orderCache oid

/-- Witness for the amended C4: on a state where order 1 is cached, each of
the three mutation paths leaves no cache entry for key 1. -/
theorem mutations_invalidate_order_cache_witness :
    cacheLookup sSeeded.orderCache 1 = some oSeed ∧
    cacheLookup (updateOrder sSeeded 1 updShip uAlice).2.orderCache 1 =
      none ∧
    cacheLookup (deleteOrder sSeeded 1 uRoot).2.orderCache 1 = none ∧
    cacheLookup
      (updateOrderStatus sSeeded 1 OrderStatus.CONFIRMED).2.orderCache 1 =
      none :=
  ⟨by decide,
   (mutations_invalidate_order_cache sSeeded 1 updShip uAlice
     OrderStatus.CONFIRMED).1 (applyOrderUpdate oSeed updShip) rfl,
   (mutations_invalidate_order_cache sSeeded 1 updShip uAlice
     OrderStatus.CONFIRMED).2.1 rfl,
   (mutations_invalidate_order_cache sSeeded 1 updShip uAlice
     OrderStatus.CONFIRMED).2.2
     { oSeed with status := OrderStatus.CONFIRMED } rfl⟩

/-- C5 counterexample: `stock_quantity` is NOT mutated only through the
atomic deduct operation — `update_product` writes it directly whenever the
validated payload supplies it (stock jumps from 5 to 7 with no deduction
involved). -/
theorem update_product_mutates_stock :
    productStock baseSys.db 1 = some 5 ∧
    productStock (updateProduct baseSys 1 updStock7).2.db 1 = some 7 ∧
    (updateProduct baseSys 1 updStock7).1 =
      some (applyProductUpdate pWidget updStock7) :=
  ⟨by decide, by decide, rfl⟩

theorem stockNonneg_replace (db : DB) (pid : Int) (p' : Product)
    (h : stockNonneg db = true) (h' : 0 ≤ p'.stock_quantity) :
    stockNonneg (replaceProduct db pid p') = true := by
  unfold stockNonneg replaceProduct at *
  simp only [List.all_eq_true, decide_eq_true_eq] at h ⊢
  intro x hx
  rcases List.mem_map.mp hx with ⟨y, hy, hxy⟩
  by_cases hid : (y.id == pid) = true
  · rw [← hxy]
    simp only [hid, if_true]
    exact h'
  · rw [← hxy]
    simp only [hid]
    simp only [Bool.false_eq_true, if_false]
    exact h y hy

theorem stockNonneg_insertNewOrder (s : Sys) (o : Order) :
    stockNonneg (insertNewOrder s o).db = stockNonneg s.db := rfl

/-- C5 amended: stock never goes negative — creation and update of a product
go through the validated payload (`ge=0`) and the deduct path refuses any
oversell — but stock is mutated not only by the atomic deduct: the product
update path writes it too (see the counterexample). -/
theorem stock_never_negative (s : Sys) (h : stockNonneg s.db = true) :
    (∀ pd : ProductCreate, 0 ≤ pd.stock_quantity →
      stockNonneg (createProduct s pd).2.db = true) ∧
    (∀ (pid : Int) (pd : ProductUpdate), pd.validStock = true →
      stockNonneg (updateProduct s pid pd).2.db = true) ∧
    (∀ pid q : Int, stockNonneg (deductStock s pid q).2.db = true) ∧
    (∀ (req : OrderCreate) (u : User),
      stockNonneg (createOrder s req u).2.db = true) := by
  refine ⟨?_, ?_, ?_, ?_⟩
  · intro pd hpd
    show ((s.db.products ++
      [({ id := nextProductId s.db, name := pd.name, price := pd.price,
          stock_quantity := pd.stock_quantity } : Product)]).all
        (fun p => decide (0 ≤ p.stock_quantity))) = true
    unfold stockNonneg at h
    simp only [List.all_eq_true, decide_eq_true_eq] at h ⊢
    intro x hx
    rcases List.mem_append.mp hx with hx | hx
    · exact h x hx
    · simp only [List.mem_singleton] at hx
      rw [hx]
      exact hpd
  · intro pid pd hv
    unfold updateProduct
    split
    · exact h
    · next p hfo =>
      have hp : p ∈ s.db.products := List.mem_of_find?_eq_some hfo
      show stockNonneg
        (replaceProduct s.db pid (applyProductUpdate p pd)) = true
      apply stockNonneg_replace _ _ _ h
      have hps : 0 ≤ p.stock_quantity := by
        unfold stockNonneg at h
        simp only [List.all_eq_true, decide_eq_true_eq] at h
        exact h p hp
      show 0 ≤ pd.stock_quantity.getD p.stock_quantity
      unfold ProductUpdate.validStock at hv
      cases hsq : pd.stock_quantity with
      | none => simpa using hps
      | some v =>
        rw [hsq] at hv
        simp only [decide_eq_true_eq] at hv
        simpa using hv
  · intro pid q
    by_cases hb : (deductStock s pid q).1 = true
    · rcases deductStock_ok s pid q hb with ⟨p, hf, hq, hs2⟩
      rw [hs2]
      show stockNonneg (replaceProduct s.db pid
        { p with stock_quantity := p.stock_quantity - q }) = true
      apply stockNonneg_replace _ _ _ h
      show 0 ≤ p.stock_quantity - q
      omega
    · have hfalse : (deductStock s pid q).1 = false := by
        cases hx : (deductStock s pid q).1
        · rfl
        · exact absurd hx hb
      rw [deductStock_fail s pid q hfalse]
      exact h
  · intro req u
    cases hres : (createOrder s req u).1 with
    | error e =>
      have hne : ∀ o, (createOrder s req u).1 ≠ Except.ok o := by
        intro o ho
        rw [hres] at ho
        exact Except.noConfusion ho
      rw [createOrder_err_db s req u hne]
      exact h
    | ok o =>
      rcases createOrder_ok_spec s req u o hres with
        ⟨pid, product, p, -, -, hf, -, hq, -, hstate⟩
      rw [hstate, sendMessage_db, stockNonneg_insertNewOrder]
      show stockNonneg (replaceProduct s.db pid
        { p with stock_quantity := p.stock_quantity - req.quantity }) = true
      apply stockNonneg_replace _ _ _ h
      show 0 ≤ p.stock_quantity - req.quantity
      omega

/-- Witness for the amended C5 on the base state. -/
theorem stock_never_negative_witness :
    stockNonneg baseSys.db = true ∧
    stockNonneg (createProduct baseSys pdNew).2.db = true ∧
    stockNonneg (updateProduct baseSys 1 updStock7).2.db = true ∧
    stockNonneg (deductStock baseSys 1 2).2.db = true ∧
    stockNonneg (createOrder baseSys reqW3 uAlice).2.db = true :=
  ⟨by decide,
   (stock_never_negative baseSys (by decide)).1 pdNew (by decide),
   (stock_never_negative baseSys (by decide)).2.1 1 updStock7 (by decide),
   (stock_never_negative baseSys (by decide)).2.2.1 1 2,
   (stock_never_negative baseSys (by decide)).2.2.2 reqW3 uAlice⟩

theorem find?_append_fresh (l : List Order) (o : Order)
    (h : ∀ x ∈ l, x.id ≠ o.id) :
    (l ++ [o]).find? (fun x => x.id == o.id) = some o := by
  induction l with
  | nil => simp [List.find?]
  | cons a as ih =>
    have ha : (a.id == o.id) = false := by
      simpa using h a (List.mem_cons_self a as)
    rw [List.cons_append, List.find?_cons_of_neg _ (by simp [ha])]
    exact ih (fun x hx => h x (List.mem_cons_of_mem a hx))

/-- C6: when the producer never started, every publish call is a no-op that
drops the event, and a creation attempted while publishing is down
(producer never started, or broker unreachable — the raised send error is
swallowed) still commits the order, leaves it retrievable from the system
of record, publishes nothing, and surfaces no error to the caller (the
publish step is total and the creation result is the business result). -/
theorem publish_best_effort (s : Sys) :
    (s.producerStarted = false →
      ∀ (t : String) (m : OrderEvent), sendMessage s t m = s) ∧
    (∀ (req : OrderCreate) (u : User) (o : Order),
      s.producerStarted = false ∨ s.brokerUp = false →
      ordersWf s.db = true →
      (createOrder s req u).1 = Except.ok o →
      findOrder (createOrder s req u).2.db o.id = some o ∧
      (createOrder s req u).2.sentEvents = s.sentEvents) := by
  constructor
  · intro hps t m
    exact sendMessage_not_started s t m hps
  · intro req u o hdown hwf h
    rcases createOrder_ok_spec s req u o h with
      ⟨pid, product, p, hp, hg1, hf, hqp, hq, ho, hstate⟩
    obtain ⟨hdb1, hoc1, hps1, hbu1, hse1⟩ := getProduct_frame s pid true
    have hoid : o.id = s.db.nextOrderId := by
      rw [ho]
      show (getProduct s pid true).2.db.nextOrderId = s.db.nextOrderId
      rw [hdb1]
    constructor
    · rw [hstate, sendMessage_db]
      show (s.db.orders ++ [o]).find? (fun x => x.id == o.id) = some o
      apply find?_append_fresh
      intro x hx
      unfold ordersWf at hwf
      simp only [List.all_eq_true, decide_eq_true_eq] at hwf
      have := hwf x hx
      omega
    · rcases hdown with hoff | hoff
      · have hsend := sendMessage_not_started
          (insertNewOrder
            { (getProduct s pid true).2 with
                db := replaceProduct s.db pid
                  { p with
                      stock_quantity := p.stock_quantity - req.quantity },
                productCache :=
                  cacheErase ((getProduct s pid true).2).productCache pid }
            o)
          topicOrderEvents (mkOrderEvent o) (hps1.trans hoff)
        rw [hstate, hsend]
        exact hse1
      · have hsend := sendMessage_broker_down
          (insertNewOrder
            { (getProduct s pid true).2 with
                db := replaceProduct s.db pid
                  { p with
                      stock_quantity := p.stock_quantity - req.quantity },
                productCache :=
                  cacheErase ((getProduct s pid true).2).productCache pid }
            o)
          topicOrderEvents (mkOrderEvent o) (hbu1.trans hoff)
        rw [hstate, hsend]
        exact hse1

/-- Witness for C6: with the producer down, publish is a no-op and a
creation still commits, is retrievable, and records no event. -/
theorem publish_best_effort_witness :
    sQuiet.producerStarted = false ∧
    sendMessage sQuiet topicOrderEvents (mkOrderEvent oSeed) = sQuiet ∧
    ordersWf sQuiet.db = true ∧
    (createOrder sQuiet reqW3 uAlice).1 =
      Except.ok (newOrder sQuiet reqW3 uAlice pWidget) ∧
    findOrder (createOrder sQuiet reqW3 uAlice).2.db
      (newOrder sQuiet reqW3 uAlice pWidget).id =
      some (newOrder sQuiet reqW3 uAlice pWidget) ∧
    (createOrder sQuiet reqW3 uAlice).2.sentEvents = sQuiet.sentEvents :=
  ⟨rfl,
   (publish_best_effort sQuiet).1 rfl topicOrderEvents (mkOrderEvent oSeed),
   by decide, rfl,
   ((publish_best_effort sQuiet).2 reqW3 uAlice
     (newOrder sQuiet reqW3 uAlice pWidget) (Or.inl rfl) (by decide) rfl).1,
   ((publish_best_effort sQuiet).2 reqW3 uAlice
     (newOrder sQuiet reqW3 uAlice pWidget) (Or.inl rfl) (by decide) rfl).2⟩

theorem sortByCreatedDesc_cons (x : Order) (xs : List Order) :
    sortByCreatedDesc (x :: xs) = insertByCreated x (sortByCreatedDesc xs) :=
  rfl

theorem mem_insertByCreated (a o : Order) (l : List Order) :
    a ∈ insertByCreated o l ↔ a = o ∨ a ∈ l := by
  induction l with
  | nil => simp [insertByCreated]
  | cons x xs ih =>
    unfold insertByCreated
    split
    · simp
    · rw [List.mem_cons, ih, List.mem_cons]
      tauto

theorem mem_sortByCreatedDesc (a : Order) (l : List Order) :
    a ∈ sortByCreatedDesc l ↔ a ∈ l := by
  induction l with
  | nil => simp [sortByCreatedDesc]
  | cons x xs ih =>
    rw [sortByCreatedDesc_cons, mem_insertByCreated, ih, List.mem_cons]

/-- A row matching the conditions of a non-administrator caller is owned by
that caller. -/
theorem orderCond_scope (u : User) (flt : Option OrderFilter) (o : Order)
    (hrole : u.role ≠ UserRole.ADMIN)
    (h : orderCond (some u) flt o = true) : o.user_id = u.id := by
  simp only [orderCond, Bool.and_eq_true] at h
  obtain ⟨h1, -⟩ := h
  rw [if_neg hrole] at h1
  simpa using h1

/-- C7: for a non-administrator caller, every order on any returned page is
the caller's own, whatever filters were requested; and the returned total
counts exactly the rows matching the same scoped conditions, independently
of the page window. -/
theorem list_orders_scoped (s : Sys) (skip limit : Nat)
    (flt : Option OrderFilter) (u : User)
    (hrole : u.role ≠ UserRole.ADMIN) :
    (∀ o ∈ (listOrders s skip limit flt (some u)).1, o.user_id = u.id) ∧
    ((listOrders s skip limit flt (some u)).2 =
      (s.db.orders.filter (orderCond (some u) flt)).length) ∧
    (∀ o ∈ s.db.orders.filter (orderCond (some u) flt),
      o.user_id = u.id) ∧
    (∀ skip' limit' : Nat,
      (listOrders s skip' limit' flt (some u)).2 =
      (listOrders s skip limit flt (some u)).2) := by
  refine ⟨?_, rfl, ?_, fun skip' limit' => rfl⟩
  · intro o hmem
    have h1 : o ∈ (sortByCreatedDesc
        (s.db.orders.filter (orderCond (some u) flt))).drop skip :=
      List.mem_of_mem_take hmem
    have h2 := List.mem_of_mem_drop h1
    have h3 := (mem_sortByCreatedDesc o _).mp h2
    exact orderCond_scope u flt o hrole (List.of_mem_filter h3)
  · intro o hmem
    exact orderCond_scope u flt o hrole (List.of_mem_filter hmem)

/-- Witness for C7: the seeded state queried by the non-administrator. -/
theorem list_orders_scoped_witness :
    uAlice.role ≠ UserRole.ADMIN ∧
    ((∀ o ∈ (listOrders sSeeded 0 10 (some fltPrice) (some uAlice)).1,
        o.user_id = uAlice.id) ∧
     ((listOrders sSeeded 0 10 (some fltPrice) (some uAlice)).2 =
       (sSeeded.db.orders.filter
         (orderCond (some uAlice) (some fltPrice))).length) ∧
     (∀ o ∈ sSeeded.db.orders.filter
         (orderCond (some uAlice) (some fltPrice)),
        o.user_id = uAlice.id) ∧
     (∀ skip' limit' : Nat,
       (listOrders sSeeded skip' limit' (some fltPrice) (some uAlice)).2 =
       (listOrders sSeeded 0 10 (some fltPrice) (some uAlice)).2)) :=
  ⟨by decide,
   list_orders_scoped sSeeded 0 10 (some fltPrice) uAlice (by decide)⟩

theorem consumeLoop_spec (env : Nat → AttemptOutcome) :
    ∀ (r a : Nat) (sl : List Nat),
      (consumeLoop env r a sl).attempts ≤ a + r ∧
      ((∀ d ∈ sl, d = 10) →
        ∀ d ∈ (consumeLoop env r a sl).sleeps, d = 10) ∧
      ((∀ k, env k = AttemptOutcome.fails) →
        (consumeLoop env r a sl).attempts = a + r) := by
  intro r
  induction r with
  | zero => exact fun a sl => ⟨Nat.le_refl _, fun hs => hs, fun _ => rfl⟩
  | succ r ih =>
    intro a sl
    unfold consumeLoop
    cases henv : env a with
    | endsNormally =>
      simp only []
      refine ⟨by omega, fun hs => hs, ?_⟩
      intro hall
      have := hall a
      rw [henv] at this
      exact absurd this (by simp)
    | fails =>
      simp only []
      split
      · refine ⟨?_, ?_, ?_⟩
        · have := (ih (a + 1) (sl ++ [10])).1
          omega
        · intro hs
          refine (ih (a + 1) (sl ++ [10])).2.1 ?_
          intro d hd
          rcases List.mem_append.mp hd with h' | h'
          · exact hs d h'
          · simpa using h'
        · intro hall
          have := (ih (a + 1) (sl ++ [10])).2.2 hall
          omega
      · refine ⟨?_, ?_, ?_⟩
        · have := (ih (a + 1) sl).1
          omega
        · exact fun hs => (ih (a + 1) sl).2.1 hs
        · intro hall
          have := (ih (a + 1) sl).2.2 hall
          omega

/-- C8: the consumer loop makes at most its fixed budget of five connection
attempts, sleeps a fixed 10 seconds between failed attempts, and once the
budget is exhausted the function ends (it is a terminating function that
nothing restarts); when every pass fails it performs exactly five
attempts. -/
theorem consumer_bounded_attempts (env : Nat → AttemptOutcome) :
    (consumeOrderEvents env).attempts ≤ 5 ∧
    (∀ d ∈ (consumeOrderEvents env).sleeps, d = 10) ∧
    ((∀ k, env k = AttemptOutcome.fails) →
      (consumeOrderEvents env).attempts = 5) := by
  have h := consumeLoop_spec env 5 0 []
  exact ⟨h.1, h.2.1 (by simp), h.2.2⟩

/-- Witness for C8 under the always-failing broker environment. -/
theorem consumer_bounded_attempts_witness :
    (consumeOrderEvents (fun _ => AttemptOutcome.fails)).attempts = 5 :=
  (consumer_bounded_attempts (fun _ => AttemptOutcome.fails)).2.2
    (fun _ => rfl)

theorem replaceStoredOrder_products (db : DB) (oid : Nat) (o' : Order) :
    (replaceStoredOrder db oid o').products = db.products := rfl

/-- C9: a successful `update_order` returns exactly the stored row with only
the supplied fields overwritten: identity, owner, product reference, status,
contact and creation time are untouched; an omitted `quantity`,
`shipping_address` or `total_price` keeps its old value — in particular
updating `quantity` alone leaves `total_price` as it was (no recomputation)
— and the products table (hence every stock figure) is unchanged. -/
theorem update_order_frame (s : Sys) (oid : Nat) (upd : OrderUpdate)
    (u : User) (o o' : Order)
    (hfind : findOrder s.db oid = some o)
    (h : (updateOrder s oid upd u).1 = Except.ok o') :
    o' = applyOrderUpdate o upd ∧
    o'.id = o.id ∧ o'.user_id = o.user_id ∧
    o'.product_id = o.product_id ∧ o'.status = o.status ∧
    o'.customer_email = o.customer_email ∧ o'.created_at = o.created_at ∧
    (upd.quantity = none → o'.quantity = o.quantity) ∧
    (∀ q, upd.quantity = some q → o'.quantity = q) ∧
    (upd.shipping_address = none →
      o'.shipping_address = o.shipping_address) ∧
    (upd.total_price = none → o'.total_price = o.total_price) ∧
    (∀ tp, upd.total_price = some tp → o'.total_price = tp) ∧
    (updateOrder s oid upd u).2.db.products = s.db.products := by
  unfold updateOrder at h ⊢
  split at h
  · simp at h
  · next o0 hfo =>
    have hfo' : findOrder s.db oid = some o0 := hfo
    rw [hfind] at hfo'
    injection hfo' with ho0
    subst ho0
    split at h
    · simp at h
    · next hperm =>
      simp only [] at h
      injection h with h'
      subst h'
      refine ⟨rfl, rfl, rfl, rfl, rfl, rfl, rfl, ?_, ?_, ?_, ?_, ?_, ?_⟩
      · intro hq
        simp [applyOrderUpdate, hq]
      · intro q hq
        simp [applyOrderUpdate, hq]
      · intro hsa
        simp [applyOrderUpdate, hsa]
      · intro htp
        simp [applyOrderUpdate, htp]
      · intro tp htp
        simp [applyOrderUpdate, htp]
      · try rw [if_neg hperm]
        rfl

/-- Witness for C9: updating only the quantity of the seeded order leaves
its total price and the products table unchanged. -/
theorem update_order_frame_witness :
    (applyOrderUpdate oSeed updQty5 = applyOrderUpdate oSeed updQty5) ∧
    (applyOrderUpdate oSeed updQty5).total_price = oSeed.total_price ∧
    (updateOrder sSeeded 1 updQty5 uAlice).2.db.products =
      sSeeded.db.products := by
  have h := update_order_frame sSeeded 1 updQty5 uAlice oSeed
    (applyOrderUpdate oSeed updQty5) (by decide) rfl
  exact ⟨h.1.symm ▸ rfl, h.2.2.2.2.2.2.2.2.2.2.1 rfl,
    h.2.2.2.2.2.2.2.2.2.2.2.2⟩

/-- C10: reading a nonexistent order through the cache writes no cache
entry (the state is unchanged, so the miss is never negatively cached and
every repeated read consults the system of record again), and — when no
leftover entry sits under that key — the read returns nothing. -/
theorem get_order_no_negative_cache (s : Sys) (oid : Nat)
    (hdb : findOrder s.db oid = none) :
    (getOrder s oid true).2 = s ∧
    (cacheLookup s.orderCache oid = none →
      getOrder s oid true = (none, s)) := by
  have hred : getOrder s oid true =
      (match cacheLookup s.orderCache oid with
       | some cached => (some cached, s)
       | none =>
         match findOrder s.db oid with
         | some o =>
           (some o, { s with orderCache := cacheInsert s.orderCache oid o })
         | none => (none, s)) := rfl
  constructor
  · rw [hred]
    cases hc : cacheLookup s.orderCache oid with
    | some cached => rfl
    | none =>
      simp only []
      rw [hdb]
  · intro hc
    rw [hred, hc]
    simp only []
    rw [hdb]

/-- Witness for C10: order 5 exists nowhere in the base state. -/
theorem get_order_no_negative_cache_witness :
    findOrder baseSys.db 5 = none ∧
    cacheLookup baseSys.orderCache 5 = none ∧
    ((getOrder baseSys 5 true).2 = baseSys ∧
     (cacheLookup baseSys.orderCache 5 = none →
       getOrder baseSys 5 true = (none, baseSys))) :=
  ⟨by decide, by decide, get_order_no_negative_cache baseSys 5 (by decide)⟩

end OrderMgmt
